import Mathlib

set_option autoImplicit false

/-!
Verification development for a Binance futures trading shell
(`trading_bot.py`).  The program is a thin client wrapper
(`BinanceFuturesBot`) around an exchange REST library plus an interactive
menu shell (`main`).  We shallowly embed the wrapper operations and one
iteration of the menu loop:

* Python floats are modelled as rationals (`ℚ`); the numeric comparisons
  the code performs (`<= 0`, `!= 0`, `> 0`) are exact on the values in
  range, so no rounding behaviour is relevant to any property proved here.
* The exchange client library is an external collaborator; it is modelled
  as an oracle (`Exchange`) giving the response of each endpoint, and each
  wrapper operation records the requests it actually issues in a `trace`.
* Exceptions are modelled by `Except Exn`; `Exn.valueError` corresponds to
  Python `ValueError` (local validation), `Exn.apiError` to
  `BinanceAPIException` (exchange-reported), `Exn.other` to anything else.
* Quote characters inside Python error message literals are elided, and
  so are the emoji prefixes of the shell's printed error lines; the words
  of each message are kept verbatim.
-/

/-- ASCII upper-casing of one character, the behaviour of Python
`str.upper()` on the ASCII symbol/side strings this program handles. -/
def upperChar (c : Char) : Char :=
  if 97 ≤ c.toNat ∧ c.toNat ≤ 122 then Char.ofNat (c.toNat - 32) else c

/-- `s.upper()` from the source, character by character. -/
def pyUpper (s : String) : String :=
  ⟨s.data.map upperChar⟩

/-- Python truthiness of a string: non-empty. -/
def pyTruthyStr (s : String) : Bool := s ≠ ""

/-- The requests the wrapper can issue to the exchange client library,
mirroring the `futures_*` calls in `trading_bot.py`. -/
structure CreateOrderReq where
  symbol : String
  side : String
  type : String
  timeInForce : Option String
  quantity : ℚ
  price : Option ℚ
  stopPrice : Option ℚ
deriving DecidableEq, Repr

inductive Request where
  | futuresAccount : Request
  | symbolTicker (symbol : String) : Request
  | createOrder (r : CreateOrderReq) : Request
  | getOrder (symbol : String) (orderId : Int) : Request
  | cancelOrder (symbol : String) (orderId : Int) : Request
  | getOpenOrders (symbol : Option String) : Request
deriving DecidableEq, Repr

/-- Exceptions visible to the shell. -/
inductive Exn where
  | valueError (m : String) : Exn
  | apiError (m : String) : Exn
  | other (m : String) : Exn
deriving DecidableEq, Repr

/-- `str(e)`: the message printed for an exception. -/
def Exn.msg : Exn → String
  | .valueError m => m
  | .apiError m => m
  | .other m => m

/-- One raw position inside the `futures_account()` response
(`positionAmt`, `entryPrice`, ... arrive as numeric strings; we model
their parsed numeric values). -/
structure RawPosition where
  symbol : String
  positionAmt : ℚ
  entryPrice : ℚ
  unrealizedPnL : ℚ
  percentage : ℚ
deriving DecidableEq, Repr

/-- The `futures_account()` response fields the code reads. -/
structure AccountResponse where
  totalWalletBalance : ℚ
  totalUnrealizedPnL : ℚ
  totalMarginBalance : ℚ
  availableBalance : ℚ
  maxWithdrawAmount : ℚ
  positions : List RawPosition
deriving DecidableEq, Repr

/-- An order response from the exchange (`futures_create_order`,
`futures_get_order`, `futures_get_open_orders` elements).  The `time`
field is the exchange timestamp in milliseconds. -/
structure OrderResp where
  orderId : Int
  symbol : String
  status : String
  type : String
  side : String
  origQty : ℚ
  executedQty : ℚ
  price : ℚ
  avgPrice : ℚ
  time : Int
deriving DecidableEq, Repr

/-- A `futures_cancel_order` response. -/
structure CancelResp where
  orderId : Int
  symbol : String
  status : String
deriving DecidableEq, Repr

/-- Oracle for the exchange client library: the response (or raised
exception) of each endpoint the wrapper calls. -/
structure Exchange where
  account : Except Exn AccountResponse
  ticker : String → Except Exn ℚ
  create : CreateOrderReq → Except Exn OrderResp
  getOrder : String → Int → Except Exn OrderResp
  cancel : String → Int → Except Exn CancelResp
  openOrders : Option String → Except Exn (List OrderResp)

/-- The `BinanceFuturesBot` construction-time state (`self.api_key`,
`self.api_secret`, `self.testnet`). -/
structure BotState where
  api_key : String
  api_secret : String
  testnet : Bool
deriving DecidableEq, Repr

/-- Result of one wrapper operation: the returned value or raised
exception, the requests issued to the exchange (in order), and the bot
state after the call. -/
structure OpResult (α : Type) where
  result : Except Exn α
  trace : List Request
  bot : BotState

/-- One filtered position of the `get_account_info` result
(`account_data['positions']` elements). -/
structure PositionOut where
  symbol : String
  size : ℚ
  entry_price : ℚ
  unrealized_pnl : ℚ
  percentage : ℚ
deriving DecidableEq, Repr

/-- The `account_data` dictionary built by `get_account_info`. -/
structure AccountData where
  total_wallet_balance : ℚ
  total_unrealized_pnl : ℚ
  total_margin_balance : ℚ
  available_balance : ℚ
  max_withdraw_amount : ℚ
  positions : List PositionOut
deriving DecidableEq, Repr

/-- The position dictionary appended for one non-zero raw position. -/
def positionOut (p : RawPosition) : PositionOut :=
  { symbol := p.symbol
    size := p.positionAmt
    entry_price := p.entryPrice
    unrealized_pnl := p.unrealizedPnL
    percentage := p.percentage }

/-- The body of `get_account_info`: extract the balance fields and loop
over the positions, appending those with `positionAmt != 0`. -/
def accountDataOfResp (a : AccountResponse) : AccountData :=
  { total_wallet_balance := a.totalWalletBalance
    total_unrealized_pnl := a.totalUnrealizedPnL
    total_margin_balance := a.totalMarginBalance
    available_balance := a.availableBalance
    max_withdraw_amount := a.maxWithdrawAmount
    positions := a.positions.foldl
      (fun acc p => if p.positionAmt ≠ 0 then acc ++ [positionOut p] else acc) [] }

/-- `BinanceFuturesBot.get_account_info`. -/
def get_account_info (bot : BotState) (ex : Exchange) : OpResult AccountData :=
  { result := ex.account.map accountDataOfResp
    trace := [.futuresAccount]
    bot := bot }

/-- `BinanceFuturesBot.get_current_price`: one ticker request for the
upper-cased symbol; the response price is returned. -/
def get_current_price (bot : BotState) (ex : Exchange) (symbol : String) : OpResult ℚ :=
  { result := ex.ticker (pyUpper symbol)
    trace := [.symbolTicker (pyUpper symbol)]
    bot := bot }

/-- `BinanceFuturesBot.place_market_order`: validate side then quantity,
then issue one MARKET create-order request. -/
def place_market_order (bot : BotState) (ex : Exchange) (symbol side : String)
    (quantity : ℚ) : OpResult OrderResp :=
  if ¬(pyUpper side = "BUY" ∨ pyUpper side = "SELL") then
    { result := .error (.valueError "Side must be BUY or SELL"), trace := [], bot := bot }
  else if quantity ≤ 0 then
    { result := .error (.valueError "Quantity must be positive"), trace := [], bot := bot }
  else
    let req : CreateOrderReq :=
      { symbol := pyUpper symbol, side := pyUpper side, type := "MARKET"
        timeInForce := none, quantity := quantity, price := none, stopPrice := none }
    { result := ex.create req, trace := [.createOrder req], bot := bot }

/-- `BinanceFuturesBot.place_limit_order`: validate side, quantity,
price, then issue one LIMIT create-order request with `timeInForce` GTC. -/
def place_limit_order (bot : BotState) (ex : Exchange) (symbol side : String)
    (quantity price : ℚ) : OpResult OrderResp :=
  if ¬(pyUpper side = "BUY" ∨ pyUpper side = "SELL") then
    { result := .error (.valueError "Side must be BUY or SELL"), trace := [], bot := bot }
  else if quantity ≤ 0 then
    { result := .error (.valueError "Quantity must be positive"), trace := [], bot := bot }
  else if price ≤ 0 then
    { result := .error (.valueError "Price must be positive"), trace := [], bot := bot }
  else
    let req : CreateOrderReq :=
      { symbol := pyUpper symbol, side := pyUpper side, type := "LIMIT"
        timeInForce := some "GTC", quantity := quantity
        price := some price, stopPrice := none }
    { result := ex.create req, trace := [.createOrder req], bot := bot }

/-- `BinanceFuturesBot.place_stop_limit_order`: validate side, quantity,
then stop and limit price together, then issue one STOP create-order
request. -/
def place_stop_limit_order (bot : BotState) (ex : Exchange) (symbol side : String)
    (quantity stop_price limit_price : ℚ) : OpResult OrderResp :=
  if ¬(pyUpper side = "BUY" ∨ pyUpper side = "SELL") then
    { result := .error (.valueError "Side must be BUY or SELL"), trace := [], bot := bot }
  else if quantity ≤ 0 then
    { result := .error (.valueError "Quantity must be positive"), trace := [], bot := bot }
  else if stop_price ≤ 0 ∨ limit_price ≤ 0 then
    { result := .error (.valueError "Stop price and limit price must be positive")
      trace := [], bot := bot }
  else
    let req : CreateOrderReq :=
      { symbol := pyUpper symbol, side := pyUpper side, type := "STOP"
        timeInForce := some "GTC", quantity := quantity
        price := some limit_price, stopPrice := some stop_price }
    { result := ex.create req, trace := [.createOrder req], bot := bot }

/-- The `status_info` dictionary built by `get_order_status` (the
timestamp is kept as the raw exchange milliseconds; its wall-clock
rendering is display formatting outside the model). -/
structure OrderStatusInfo where
  orderId : Int
  symbol : String
  status : String
  type : String
  side : String
  origQty : ℚ
  executedQty : ℚ
  price : ℚ
  avgPrice : ℚ
  time : Int
deriving DecidableEq, Repr

def statusInfoOfOrder (o : OrderResp) : OrderStatusInfo :=
  { orderId := o.orderId, symbol := o.symbol, status := o.status
    type := o.type, side := o.side, origQty := o.origQty
    executedQty := o.executedQty, price := o.price
    avgPrice := o.avgPrice, time := o.time }

/-- `BinanceFuturesBot.get_order_status`. -/
def get_order_status (bot : BotState) (ex : Exchange) (symbol : String)
    (order_id : Int) : OpResult OrderStatusInfo :=
  { result := (ex.getOrder (pyUpper symbol) order_id).map statusInfoOfOrder
    trace := [.getOrder (pyUpper symbol) order_id]
    bot := bot }

/-- `BinanceFuturesBot.cancel_order`. -/
def cancel_order (bot : BotState) (ex : Exchange) (symbol : String)
    (order_id : Int) : OpResult CancelResp :=
  { result := ex.cancel (pyUpper symbol) order_id
    trace := [.cancelOrder (pyUpper symbol) order_id]
    bot := bot }

/-- `BinanceFuturesBot.get_open_orders`: `if symbol:` (truthy, i.e. not
`None` and not empty) issues the symbol-filtered request, otherwise the
unfiltered one. -/
def get_open_orders (bot : BotState) (ex : Exchange) (symbol : Option String) :
    OpResult (List OrderResp) :=
  match symbol with
  | some s =>
    if pyTruthyStr s then
      { result := ex.openOrders (some (pyUpper s))
        trace := [.getOpenOrders (some (pyUpper s))], bot := bot }
    else
      { result := ex.openOrders none, trace := [.getOpenOrders none], bot := bot }
  | none =>
    { result := ex.openOrders none, trace := [.getOpenOrders none], bot := bot }

/-! ## Interactive shell: input collection (`get_user_input`) -/

/-- The scalar input types the shell requests (`str`, `int`, `float`). -/
inductive InputType where
  | str : InputType
  | int : InputType
  | float : InputType
deriving DecidableEq, Repr

/-- A typed scalar value returned by `get_user_input`. -/
inductive PyVal where
  | vStr (s : String) : PyVal
  | vInt (n : Int) : PyVal
  | vFloat (q : ℚ) : PyVal
deriving DecidableEq, Repr

/-- Decimal value of a digit list (`int` parsing core). -/
def natOfDigits (cs : List Char) : Option Nat :=
  if cs ≠ [] ∧ cs.all Char.isDigit then
    some (cs.foldl (fun a c => a * 10 + (c.toNat - 48)) 0)
  else none

/-- Python `int(s)` on an already-stripped string: optional sign then a
non-empty run of decimal digits (exotic literal forms such as digit
underscores are out of the model). -/
def pyInt (s : String) : Option Int :=
  match s.data with
  | '-' :: rest => (natOfDigits rest).map (fun n => -(n : Int))
  | '+' :: rest => (natOfDigits rest).map (fun n => (n : Int))
  | cs => (natOfDigits cs).map (fun n => (n : Int))

/-- Numeric value of the digits after the decimal point. -/
def fracOfDigits (cs : List Char) : ℚ :=
  cs.foldr (fun c a => (((c.toNat - 48 : ℕ) : ℚ) + a) / 10) 0

/-- Split a character list at the first decimal point, if any. -/
def splitDot : List Char → List Char × Option (List Char)
  | [] => ([], none)
  | c :: rest =>
    if c = '.' then ([], some rest)
    else
      let (ip, fp) := splitDot rest
      (c :: ip, fp)

/-- Magnitude part of a Python `float(s)` literal: `digits`,
`digits.digits`, `digits.` or `.digits` (a second decimal point fails
the digit check of the fractional part). -/
def pyFloatMag (cs : List Char) : Option ℚ :=
  match splitDot cs with
  | (ip, none) =>
    if ip ≠ [] ∧ ip.all Char.isDigit then
      some ((ip.foldl (fun a c => a * 10 + (c.toNat - 48)) 0 : ℕ) : ℚ)
    else none
  | (ip, some fp) =>
    if (ip ≠ [] ∨ fp ≠ []) ∧ ip.all Char.isDigit ∧ fp.all Char.isDigit then
      some (((ip.foldl (fun a c => a * 10 + (c.toNat - 48)) 0 : ℕ) : ℚ) + fracOfDigits fp)
    else none

/-- Python `float(s)` on an already-stripped string (decimal literals;
exponents and the special words are out of the model). -/
def pyFloat (s : String) : Option ℚ :=
  match s.data with
  | '-' :: rest => (pyFloatMag rest).map (fun q => -q)
  | '+' :: rest => pyFloatMag rest
  | cs => pyFloatMag cs

/-- Python `s.strip()`: drop leading and trailing whitespace. -/
def pyStrip (s : String) : String :=
  ⟨((s.data.dropWhile Char.isWhitespace).reverse.dropWhile Char.isWhitespace).reverse⟩

/-- The conversion step of `get_user_input` on the stripped text:
`str` keeps the text, `int`/`float` parse it, `none` is the raised
`ValueError`. -/
def parseInput (ty : InputType) (s : String) : Option PyVal :=
  match ty with
  | .str => some (.vStr s)
  | .int => (pyInt s).map .vInt
  | .float => (pyFloat s).map .vFloat

/-- One console event while a prompt is pending: an entered line, or a
keyboard interrupt. -/
inductive InputEvent where
  | line (s : String) : InputEvent
  | interrupt : InputEvent
deriving DecidableEq, Repr

/-- `get_user_input(prompt, input_type, validation_func)` over a finite
stream of console events.  Outer `none` means the stream ran out with the
prompt still pending (the Python loop would keep waiting); otherwise the
returned value is `none` for a keyboard interrupt ("Operation cancelled")
and `some v` for a value that parsed and passed the predicate.  A line
that fails to parse (`ValueError`) or fails the predicate re-prompts. -/
def getUserInput (ty : InputType) (vf : PyVal → Bool) :
    List InputEvent → Option (Option PyVal × List InputEvent)
  | [] => none
  | .interrupt :: rest => some (none, rest)
  | .line s :: rest =>
    match parseInput ty (pyStrip s) with
    | none => getUserInput ty vf rest
    | some v => if vf v then some (some v, rest) else getUserInput ty vf rest

/-- `get_user_input` at type `str` (the shell's symbol/side prompts). -/
def getUserInputStr (vf : String → Bool) (evts : List InputEvent) :
    Option (Option String × List InputEvent) :=
  match getUserInput .str (fun v => match v with | .vStr s => vf s | _ => false) evts with
  | some (some (.vStr s), rest) => some (some s, rest)
  | some (none, rest) => some (none, rest)
  | _ => none

/-- `get_user_input` at type `int` (menu choice, order ids). -/
def getUserInputInt (vf : Int → Bool) (evts : List InputEvent) :
    Option (Option Int × List InputEvent) :=
  match getUserInput .int (fun v => match v with | .vInt n => vf n | _ => false) evts with
  | some (some (.vInt n), rest) => some (some n, rest)
  | some (none, rest) => some (none, rest)
  | _ => none

/-- `get_user_input` at type `float` (quantities and prices). -/
def getUserInputFloat (vf : ℚ → Bool) (evts : List InputEvent) :
    Option (Option ℚ × List InputEvent) :=
  match getUserInput .float (fun v => match v with | .vFloat q => vf q | _ => false) evts with
  | some (some (.vFloat q), rest) => some (some q, rest)
  | some (none, rest) => some (none, rest)
  | _ => none

/-! ## Interactive shell: one iteration of the `main` menu loop -/

/-- Observable outcome of one iteration of the `while True` loop in
`main`: whether the loop broke, the error lines printed (menu text and
success formatting are not tracked), the exchange requests issued, and
the remaining console events. -/
structure IterOut where
  broke : Bool
  displayed : List String
  trace : List Request
  rest : List InputEvent

/-- Outcome of an iteration that reaches the next prompt with nothing
dispatched (a falsy input hit a `continue`-check, or an untracked print). -/
def contOut (ev : List InputEvent) : IterOut :=
  { broke := false, displayed := [], trace := [], rest := ev }

/-- Outcome of an iteration around one dispatched wrapper operation:
`errPre` is the error-line text before the exception message in the
branch's `except` handler. -/
def opOut {α : Type} (errPre : String) (r : OpResult α) (ev : List InputEvent) : IterOut :=
  match r.result with
  | .ok _ => { broke := false, displayed := [], trace := r.trace, rest := ev }
  | .error e =>
    { broke := false, displayed := [errPre ++ e.msg], trace := r.trace, rest := ev }

/-- The side predicate the shell passes for BUY/SELL prompts. -/
def sideOk (s : String) : Bool := pyUpper s = "BUY" ∨ pyUpper s = "SELL"

/-- The positivity predicate the shell passes for quantity/price prompts. -/
def posQ (q : ℚ) : Bool := 0 < q

/-- Menu choice 1: view account information. -/
def menuAccount (bot : BotState) (ex : Exchange) (ev : List InputEvent) :
    Option IterOut :=
  some (opOut "Error getting account info: " (get_account_info bot ex) ev)

/-- Menu choice 2: get current price (`if symbol:` guards the call). -/
def menuPrice (bot : BotState) (ex : Exchange) (ev : List InputEvent) :
    Option IterOut :=
  match getUserInputStr (fun _ => true) ev with
  | none => none
  | some (none, ev2) => some (contOut ev2)
  | some (some sym, ev2) =>
    if pyTruthyStr sym then
      some (opOut "Error getting price: " (get_current_price bot ex sym) ev2)
    else some (contOut ev2)

/-- Menu choice 3: place market order. -/
def menuMarket (bot : BotState) (ex : Exchange) (ev : List InputEvent) :
    Option IterOut :=
  match getUserInputStr (fun _ => true) ev with
  | none => none
  | some (none, ev2) => some (contOut ev2)
  | some (some sym, ev2) =>
    if ¬pyTruthyStr sym then some (contOut ev2) else
    match getUserInputStr sideOk ev2 with
    | none => none
    | some (none, ev3) => some (contOut ev3)
    | some (some side, ev3) =>
      if ¬pyTruthyStr side then some (contOut ev3) else
      match getUserInputFloat posQ ev3 with
      | none => none
      | some (none, ev4) => some (contOut ev4)
      | some (some qty, ev4) =>
        if qty = 0 then some (contOut ev4) else
        some (opOut "Error placing market order: "
          (place_market_order bot ex sym side qty) ev4)

/-- Menu choice 4: place limit order. -/
def menuLimit (bot : BotState) (ex : Exchange) (ev : List InputEvent) :
    Option IterOut :=
  match getUserInputStr (fun _ => true) ev with
  | none => none
  | some (none, ev2) => some (contOut ev2)
  | some (some sym, ev2) =>
    if ¬pyTruthyStr sym then some (contOut ev2) else
    match getUserInputStr sideOk ev2 with
    | none => none
    | some (none, ev3) => some (contOut ev3)
    | some (some side, ev3) =>
      if ¬pyTruthyStr side then some (contOut ev3) else
      match getUserInputFloat posQ ev3 with
      | none => none
      | some (none, ev4) => some (contOut ev4)
      | some (some qty, ev4) =>
        if qty = 0 then some (contOut ev4) else
        match getUserInputFloat posQ ev4 with
        | none => none
        | some (none, ev5) => some (contOut ev5)
        | some (some price, ev5) =>
          if price = 0 then some (contOut ev5) else
          some (opOut "Error placing limit order: "
            (place_limit_order bot ex sym side qty price) ev5)

/-- Menu choice 5: place stop-limit order. -/
def menuStopLimit (bot : BotState) (ex : Exchange) (ev : List InputEvent) :
    Option IterOut :=
  match getUserInputStr (fun _ => true) ev with
  | none => none
  | some (none, ev2) => some (contOut ev2)
  | some (some sym, ev2) =>
    if ¬pyTruthyStr sym then some (contOut ev2) else
    match getUserInputStr sideOk ev2 with
    | none => none
    | some (none, ev3) => some (contOut ev3)
    | some (some side, ev3) =>
      if ¬pyTruthyStr side then some (contOut ev3) else
      match getUserInputFloat posQ ev3 with
      | none => none
      | some (none, ev4) => some (contOut ev4)
      | some (some qty, ev4) =>
        if qty = 0 then some (contOut ev4) else
        match getUserInputFloat posQ ev4 with
        | none => none
        | some (none, ev5) => some (contOut ev5)
        | some (some sp, ev5) =>
          if sp = 0 then some (contOut ev5) else
          match getUserInputFloat posQ ev5 with
          | none => none
          | some (none, ev6) => some (contOut ev6)
          | some (some lp, ev6) =>
            if lp = 0 then some (contOut ev6) else
            some (opOut "Error placing stop-limit order: "
              (place_stop_limit_order bot ex sym side qty sp lp) ev6)

/-- Menu choice 6: check order status (`if not order_id: continue`). -/
def menuStatus (bot : BotState) (ex : Exchange) (ev : List InputEvent) :
    Option IterOut :=
  match getUserInputStr (fun _ => true) ev with
  | none => none
  | some (none, ev2) => some (contOut ev2)
  | some (some sym, ev2) =>
    if ¬pyTruthyStr sym then some (contOut ev2) else
    match getUserInputInt (fun _ => true) ev2 with
    | none => none
    | some (none, ev3) => some (contOut ev3)
    | some (some oid, ev3) =>
      if oid = 0 then some (contOut ev3) else
      some (opOut "Error getting order status: "
        (get_order_status bot ex sym oid) ev3)

/-- Menu choice 7: cancel order (`if not order_id: continue`). -/
def menuCancel (bot : BotState) (ex : Exchange) (ev : List InputEvent) :
    Option IterOut :=
  match getUserInputStr (fun _ => true) ev with
  | none => none
  | some (none, ev2) => some (contOut ev2)
  | some (some sym, ev2) =>
    if ¬pyTruthyStr sym then some (contOut ev2) else
    match getUserInputInt (fun _ => true) ev2 with
    | none => none
    | some (none, ev3) => some (contOut ev3)
    | some (some oid, ev3) =>
      if oid = 0 then some (contOut ev3) else
      some (opOut "Error cancelling order: " (cancel_order bot ex sym oid) ev3)

/-- Menu choice 8: view open orders.  Unlike the other branches this one
has NO `continue`-check: `symbol = symbol if symbol else None` converts
both an interrupt (`None`) and an empty line to `None`, and
`bot.get_open_orders(...)` is dispatched in every case — on a falsy
symbol as the unfiltered request. -/
def menuOpenOrders (bot : BotState) (ex : Exchange) (ev : List InputEvent) :
    Option IterOut :=
  match getUserInputStr (fun _ => true) ev with
  | none => none
  | some (none, ev2) =>
    some (opOut "Error getting open orders: " (get_open_orders bot ex none) ev2)
  | some (some sym, ev2) =>
    some (opOut "Error getting open orders: "
      (get_open_orders bot ex (if pyTruthyStr sym then some sym else none)) ev2)

/-- One iteration of the `while True` loop in `main`, driven by a finite
console event stream.  `none` means the stream ran out mid-prompt.
Keyboard interrupts are caught inside `get_user_input`; an interrupt at
the menu prompt (`choice is None`) breaks the loop, an interrupt at a
parameter prompt of choices 2-7 falls into the falsy `continue`-checks,
while choice 8 has no such check and dispatches the unfiltered request.
Every dispatched wrapper operation sits in a `try`/`except` that prints
the error and falls through to the next iteration. -/
def mainIteration (bot : BotState) (ex : Exchange) (events : List InputEvent) :
    Option IterOut :=
  match getUserInputInt (fun _ => true) events with
  | none => none
  | some (none, ev) => some { broke := true, displayed := [], trace := [], rest := ev }
  | some (some choice, ev) =>
    if choice = 1 then menuAccount bot ex ev
    else if choice = 2 then menuPrice bot ex ev
    else if choice = 3 then menuMarket bot ex ev
    else if choice = 4 then menuLimit bot ex ev
    else if choice = 5 then menuStopLimit bot ex ev
    else if choice = 6 then menuStatus bot ex ev
    else if choice = 7 then menuCancel bot ex ev
    else if choice = 8 then menuOpenOrders bot ex ev
    else if choice = 9 then
      some { broke := true, displayed := [], trace := [], rest := ev }
    else
      some (contOut ev)

/-! ## Sample data for concrete evaluations -/

/-- A concrete constructed client state. -/
def sampleBot : BotState :=
  { api_key := "key", api_secret := "secret", testnet := true }

/-- A concrete order response. -/
def sampleOrder : OrderResp :=
  { orderId := 1, symbol := "BTCUSDT", status := "NEW", type := "LIMIT"
    side := "BUY", origQty := 1, executedQty := 0, price := 100
    avgPrice := 0, time := 0 }

/-- A concrete account response with one zero and one non-zero position. -/
def sampleAccount : AccountResponse :=
  { totalWalletBalance := 1000, totalUnrealizedPnL := 5
    totalMarginBalance := 1005, availableBalance := 900
    maxWithdrawAmount := 890
    positions :=
      [ { symbol := "BTCUSDT", positionAmt := 0, entryPrice := 0
          unrealizedPnL := 0, percentage := 0 }
      , { symbol := "ETHUSDT", positionAmt := 2, entryPrice := 3000
          unrealizedPnL := 5, percentage := 1 } ] }

/-- A second concrete order response, for another symbol. -/
def sampleOrder2 : OrderResp :=
  { orderId := 2, symbol := "ETHUSDT", status := "NEW", type := "LIMIT"
    side := "SELL", origQty := 3, executedQty := 0, price := 3000
    avgPrice := 0, time := 0 }

/-- A concrete exchange oracle: placements succeed, cancellation is
rejected by the exchange (as for a non-existent order id). -/
def exSample : Exchange :=
  { account := .ok sampleAccount
    ticker := fun _ => .ok 100
    create := fun _ => .ok sampleOrder
    getOrder := fun _ _ => .ok sampleOrder
    cancel := fun _ _ => .error (.apiError "Unknown order sent.")
    openOrders := fun _ => .ok [] }

/-- An exchange holding a given set of open orders; the open-orders
endpoint answers an unfiltered request with all of them and a filtered
request with exactly the orders of that symbol (the exchange-side
semantics of the endpoint). -/
def exchangeOfOrders (orders : List OrderResp) : Exchange :=
  { account := .error (.apiError "unused")
    ticker := fun _ => .error (.apiError "unused")
    create := fun _ => .error (.apiError "unused")
    getOrder := fun _ _ => .error (.apiError "unused")
    cancel := fun _ _ => .error (.apiError "unused")
    openOrders := fun
      | none => .ok orders
      | some s => .ok (orders.filter (fun o => o.symbol = s)) }

/-! ## Helper lemmas -/

theorem char_toNat_ofNat (n : Nat) (h : n.isValidChar) : (Char.ofNat n).toNat = n := by
  simp [Char.ofNat, h, Char.toNat, Char.ofNatAux, UInt32.toNat, UInt32.ofNatCore]

theorem upperChar_toNat (c : Char) :
    (upperChar c).toNat =
      if 97 ≤ c.toNat ∧ c.toNat ≤ 122 then c.toNat - 32 else c.toNat := by
  unfold upperChar
  split
  · exact char_toNat_ofNat _ (Or.inl (by omega))
  · rfl

theorem upperChar_idem (c : Char) : upperChar (upperChar c) = upperChar c := by
  show (if 97 ≤ (upperChar c).toNat ∧ (upperChar c).toNat ≤ 122
      then Char.ofNat ((upperChar c).toNat - 32) else upperChar c) = upperChar c
  refine if_neg ?_
  rw [upperChar_toNat]
  by_cases h : 97 ≤ c.toNat ∧ c.toNat ≤ 122
  · simp only [if_pos h]
    omega
  · simp only [if_neg h]
    omega

/-- Upper-casing is idempotent, so an already upper-cased symbol is sent
unchanged. -/
theorem pyUpper_pyUpper (s : String) : pyUpper (pyUpper s) = pyUpper s := by
  unfold pyUpper
  congr 1
  simp [List.map_map, Function.comp, upperChar_idem]

/-- Upper-casing preserves emptiness, hence Python truthiness. -/
theorem pyUpper_eq_empty (s : String) : pyUpper s = "" ↔ s = "" := by
  cases s with
  | mk data =>
    constructor <;> intro h
    · have hd : List.map upperChar data = [] := congrArg String.data h
      have hn : data = [] := List.map_eq_nil_iff.mp hd
      rw [hn]
    · rw [h]
      rfl

theorem pyTruthyStr_pyUpper (s : String) : pyTruthyStr (pyUpper s) = pyTruthyStr s := by
  simp only [pyTruthyStr, decide_eq_decide]
  exact not_congr (pyUpper_eq_empty s)

/-- The append-in-a-loop accumulation of `get_account_info` is
filter-then-map. -/
theorem foldl_append_filter (l : List RawPosition) (acc : List PositionOut) :
    l.foldl (fun acc p => if p.positionAmt ≠ 0 then acc ++ [positionOut p] else acc) acc
      = acc ++ (l.filter (fun p => p.positionAmt ≠ 0)).map positionOut := by
  induction l generalizing acc with
  | nil => simp
  | cons p t ih =>
    rw [List.foldl_cons, List.filter_cons]
    by_cases h : p.positionAmt ≠ 0
    · rw [if_pos h, ih]
      simp [h]
    · rw [if_neg h, ih]
      simp [h]

/-! ## Claim theorems -/

/-- C9: the credentials and network-mode flag (`api_key`, `api_secret`,
`testnet`) set at construction are never modified by any wrapper
operation: every operation returns the client state it was given, so all
three fields keep their constructed values. -/
theorem credentials_immutable (bot : BotState) (ex : Exchange)
    (sym side : String) (qty price sp lp : ℚ) (oid : Int) (optSym : Option String) :
    (get_account_info bot ex).bot = bot ∧
    (get_current_price bot ex sym).bot = bot ∧
    (place_market_order bot ex sym side qty).bot = bot ∧
    (place_limit_order bot ex sym side qty price).bot = bot ∧
    (place_stop_limit_order bot ex sym side qty sp lp).bot = bot ∧
    (get_order_status bot ex sym oid).bot = bot ∧
    (cancel_order bot ex sym oid).bot = bot ∧
    (get_open_orders bot ex optSym).bot = bot := by
  refine ⟨rfl, rfl, ?_, ?_, ?_, rfl, rfl, ?_⟩
  · unfold place_market_order
    split
    · rfl
    · split <;> rfl
  · unfold place_limit_order
    split
    · rfl
    · split
      · rfl
      · split <;> rfl
  · unfold place_stop_limit_order
    split
    · rfl
    · split
      · rfl
      · split <;> rfl
  · unfold get_open_orders
    cases optSym with
    | none => rfl
    | some s => dsimp only; split <;> rfl

/-- C10: every symbol-taking wrapper operation upper-cases the symbol
before issuing its request, so each operation behaves identically on `s`
and on `s.upper()`: the symbol argument is case-insensitive. -/
theorem symbol_case_insensitive (bot : BotState) (ex : Exchange) (s side : String)
    (qty price sp lp : ℚ) (oid : Int) :
    get_current_price bot ex s = get_current_price bot ex (pyUpper s) ∧
    place_market_order bot ex s side qty
      = place_market_order bot ex (pyUpper s) side qty ∧
    place_limit_order bot ex s side qty price
      = place_limit_order bot ex (pyUpper s) side qty price ∧
    place_stop_limit_order bot ex s side qty sp lp
      = place_stop_limit_order bot ex (pyUpper s) side qty sp lp ∧
    get_order_status bot ex s oid = get_order_status bot ex (pyUpper s) oid ∧
    cancel_order bot ex s oid = cancel_order bot ex (pyUpper s) oid ∧
    get_open_orders bot ex (some s) = get_open_orders bot ex (some (pyUpper s)) := by
  refine ⟨?_, ?_, ?_, ?_, ?_, ?_, ?_⟩ <;>
    simp only [get_current_price, place_market_order, place_limit_order,
      place_stop_limit_order, get_order_status, cancel_order, get_open_orders,
      pyUpper_pyUpper, pyTruthyStr_pyUpper]

/-- C5: in the order-status and cancel-order shell actions, an entered
order id of 0 is falsy, so the `if not order_id` continue-check skips the
operation: the iteration ends with no request issued, nothing printed and
the loop not broken. -/
theorem zero_order_id_skipped (bot : BotState) (ex : Exchange) :
    mainIteration bot ex [.line "6", .line "BTCUSDT", .line "0"]
      = some { broke := false, displayed := [], trace := [], rest := [] } ∧
    mainIteration bot ex [.line "7", .line "BTCUSDT", .line "0"]
      = some { broke := false, displayed := [], trace := [], rest := [] } :=
  ⟨rfl, rfl⟩

/-- C7: for valid inputs, `place_limit_order` issues exactly one
order-create request, of type LIMIT with `timeInForce` fixed to GTC, the
upper-cased symbol and side, and the quantity and price passed through
unchanged; the wrapper returns the exchange response for exactly that
request. -/
theorem limit_order_request (bot : BotState) (ex : Exchange) (sym side : String)
    (qty price : ℚ) (hside : pyUpper side = "BUY" ∨ pyUpper side = "SELL")
    (hq : 0 < qty) (hp : 0 < price) :
    (place_limit_order bot ex sym side qty price).trace =
      [Request.createOrder
        { symbol := pyUpper sym, side := pyUpper side, type := "LIMIT"
          timeInForce := some "GTC", quantity := qty, price := some price
          stopPrice := none }] ∧
    (place_limit_order bot ex sym side qty price).result =
      ex.create
        { symbol := pyUpper sym, side := pyUpper side, type := "LIMIT"
          timeInForce := some "GTC", quantity := qty, price := some price
          stopPrice := none } := by
  unfold place_limit_order
  rw [if_neg (not_not_intro hside), if_neg (not_le.mpr hq), if_neg (not_le.mpr hp)]
  exact ⟨rfl, rfl⟩

/-- Witness for C7 at a concrete valid input: lower-case symbol and side
are upper-cased, quantity 1 and price 100 pass through, the request type
is LIMIT with GTC. -/
theorem limit_order_request_witness :
    (place_limit_order sampleBot exSample "btcusdt" "buy" 1 100).trace =
      [Request.createOrder
        { symbol := "BTCUSDT", side := "BUY", type := "LIMIT"
          timeInForce := some "GTC", quantity := 1, price := some 100
          stopPrice := none }] ∧
    (place_limit_order sampleBot exSample "btcusdt" "buy" 1 100).result =
      exSample.create
        { symbol := "BTCUSDT", side := "BUY", type := "LIMIT"
          timeInForce := some "GTC", quantity := 1, price := some 100
          stopPrice := none } := by
  have h := limit_order_request sampleBot exSample "btcusdt" "buy" 1 100
    (Or.inl (by decide)) (by norm_num) (by norm_num)
  simpa [show pyUpper "btcusdt" = "BTCUSDT" from by decide,
    show pyUpper "buy" = "BUY" from by decide] using h

/-- C2: with an invalid side, or with a non-positive quantity or price,
each placement operation raises a `ValueError` and issues no request at
all: the trace is empty, so no order-create call is attempted. -/
theorem validation_before_network (bot : BotState) (ex : Exchange) (sym side : String)
    (qty price sp lp : ℚ) :
    (¬(pyUpper side = "BUY" ∨ pyUpper side = "SELL") ∨ qty ≤ 0 →
      (place_market_order bot ex sym side qty).trace = [] ∧
      ∃ m, (place_market_order bot ex sym side qty).result
        = .error (.valueError m)) ∧
    (¬(pyUpper side = "BUY" ∨ pyUpper side = "SELL") ∨ qty ≤ 0 ∨ price ≤ 0 →
      (place_limit_order bot ex sym side qty price).trace = [] ∧
      ∃ m, (place_limit_order bot ex sym side qty price).result
        = .error (.valueError m)) ∧
    (¬(pyUpper side = "BUY" ∨ pyUpper side = "SELL") ∨ qty ≤ 0 ∨ sp ≤ 0 ∨ lp ≤ 0 →
      (place_stop_limit_order bot ex sym side qty sp lp).trace = [] ∧
      ∃ m, (place_stop_limit_order bot ex sym side qty sp lp).result
        = .error (.valueError m)) := by
  refine ⟨fun h => ?_, fun h => ?_, fun h => ?_⟩
  · unfold place_market_order
    split
    · exact ⟨rfl, _, rfl⟩
    · split
      · exact ⟨rfl, _, rfl⟩
      · rename_i hs hq
        rcases h with h | h
        · exact absurd h hs
        · exact absurd h hq
  · unfold place_limit_order
    split
    · exact ⟨rfl, _, rfl⟩
    · split
      · exact ⟨rfl, _, rfl⟩
      · split
        · exact ⟨rfl, _, rfl⟩
        · rename_i hs hq hp
          rcases h with h | h | h
          · exact absurd h hs
          · exact absurd h hq
          · exact absurd h hp
  · unfold place_stop_limit_order
    split
    · exact ⟨rfl, _, rfl⟩
    · split
      · exact ⟨rfl, _, rfl⟩
      · split
        · exact ⟨rfl, _, rfl⟩
        · rename_i hs hq hsl
          rcases h with h | h | h | h
          · exact absurd h hs
          · exact absurd h hq
          · exact absurd (Or.inl h) hsl
          · exact absurd (Or.inr h) hsl

/-- Witness for C2 at concrete invalid inputs: an unknown side, a
non-positive price, and a non-positive quantity each produce an empty
trace and a `ValueError`. -/
theorem validation_before_network_witness :
    ((place_market_order sampleBot exSample "BTCUSDT" "HOLD" 1).trace = [] ∧
      ∃ m, (place_market_order sampleBot exSample "BTCUSDT" "HOLD" 1).result
        = .error (.valueError m)) ∧
    ((place_limit_order sampleBot exSample "BTCUSDT" "BUY" 1 (-3)).trace = [] ∧
      ∃ m, (place_limit_order sampleBot exSample "BTCUSDT" "BUY" 1 (-3)).result
        = .error (.valueError m)) ∧
    ((place_stop_limit_order sampleBot exSample "BTCUSDT" "BUY" (-2) 1 1).trace = [] ∧
      ∃ m, (place_stop_limit_order sampleBot exSample "BTCUSDT" "BUY" (-2) 1 1).result
        = .error (.valueError m)) :=
  ⟨(validation_before_network sampleBot exSample "BTCUSDT" "HOLD" 1 1 1 1).1
      (Or.inl (by decide)),
    (validation_before_network sampleBot exSample "BTCUSDT" "BUY" 1 (-3) 1 1).2.1
      (Or.inr (Or.inr (by norm_num))),
    (validation_before_network sampleBot exSample "BTCUSDT" "BUY" (-2) 1 1 1).2.2
      (Or.inr (Or.inl (by norm_num)))⟩

/-- C1 as stated is false for `place_stop_limit_order`: a failing stop
price (with a valid limit price) and a failing limit price (with a valid
stop price) raise the SAME combined message, so the message does not
identify which of the two price fields failed. -/
theorem stop_limit_message_not_field_specific :
    (place_stop_limit_order sampleBot exSample "BTCUSDT" "BUY" 1 (-1) 5).result
        = .error (.valueError "Stop price and limit price must be positive") ∧
    (place_stop_limit_order sampleBot exSample "BTCUSDT" "BUY" 1 5 (-1)).result
        = .error (.valueError "Stop price and limit price must be positive") := by
  constructor <;> rfl

/-- C1 (amended): non-positive quantity is reported as exactly the
quantity, and non-positive price in `place_limit_order` as exactly the
price; in `place_stop_limit_order` a non-positive stop or limit price
yields the single combined message naming both price fields (the message
does not distinguish which of the two failed). -/
theorem validation_error_messages (bot : BotState) (ex : Exchange) (sym side : String)
    (qty price sp lp : ℚ) (hside : pyUpper side = "BUY" ∨ pyUpper side = "SELL") :
    (qty ≤ 0 → (place_market_order bot ex sym side qty).result
        = .error (.valueError "Quantity must be positive")) ∧
    (qty ≤ 0 → (place_limit_order bot ex sym side qty price).result
        = .error (.valueError "Quantity must be positive")) ∧
    (0 < qty → price ≤ 0 → (place_limit_order bot ex sym side qty price).result
        = .error (.valueError "Price must be positive")) ∧
    (qty ≤ 0 → (place_stop_limit_order bot ex sym side qty sp lp).result
        = .error (.valueError "Quantity must be positive")) ∧
    (0 < qty → sp ≤ 0 ∨ lp ≤ 0 → (place_stop_limit_order bot ex sym side qty sp lp).result
        = .error (.valueError "Stop price and limit price must be positive")) := by
  refine ⟨fun hq => ?_, fun hq => ?_, fun hq hp => ?_, fun hq => ?_, fun hq hsl => ?_⟩
  · unfold place_market_order
    rw [if_neg (not_not_intro hside), if_pos hq]
  · unfold place_limit_order
    rw [if_neg (not_not_intro hside), if_pos hq]
  · unfold place_limit_order
    rw [if_neg (not_not_intro hside), if_neg (not_le.mpr hq), if_pos hp]
  · unfold place_stop_limit_order
    rw [if_neg (not_not_intro hside), if_pos hq]
  · unfold place_stop_limit_order
    rw [if_neg (not_not_intro hside), if_neg (not_le.mpr hq), if_pos hsl]

/-- Witness for the amended C1 at concrete inputs: one failure of each
kind, with the message the amended claim assigns to it. -/
theorem validation_error_messages_witness :
    ((place_market_order sampleBot exSample "BTCUSDT" "BUY" (-1)).result
        = .error (.valueError "Quantity must be positive")) ∧
    ((place_limit_order sampleBot exSample "BTCUSDT" "SELL" 2 (-5)).result
        = .error (.valueError "Price must be positive")) ∧
    ((place_stop_limit_order sampleBot exSample "BTCUSDT" "BUY" 2 (-1) 5).result
        = .error (.valueError "Stop price and limit price must be positive")) :=
  ⟨(validation_error_messages sampleBot exSample "BTCUSDT" "BUY" (-1) 1 1 1
      (Or.inl (by decide))).1 (by norm_num),
    (validation_error_messages sampleBot exSample "BTCUSDT" "SELL" 2 (-5) 1 1
      (Or.inr (by decide))).2.2.1 (by norm_num) (by norm_num),
    (validation_error_messages sampleBot exSample "BTCUSDT" "BUY" 2 1 (-1) 5
      (Or.inl (by decide))).2.2.2.2 (by norm_num) (Or.inl (by norm_num))⟩

/-- C3: for every account response, `get_account_info` returns a snapshot
whose balance fields are the response values unmodified and whose
positions are exactly the response positions with non-zero `positionAmt`,
each with symbol, size, entry price, unrealized PnL and percentage copied
unchanged (in response order). -/
theorem account_snapshot_filters_zero (bot : BotState) (ex : Exchange)
    (resp : AccountResponse) (h : ex.account = .ok resp) :
    (get_account_info bot ex).result = .ok
      { total_wallet_balance := resp.totalWalletBalance
        total_unrealized_pnl := resp.totalUnrealizedPnL
        total_margin_balance := resp.totalMarginBalance
        available_balance := resp.availableBalance
        max_withdraw_amount := resp.maxWithdrawAmount
        positions :=
          (resp.positions.filter (fun p => p.positionAmt ≠ 0)).map positionOut } := by
  unfold get_account_info
  rw [h]
  show Except.ok (accountDataOfResp resp) = _
  unfold accountDataOfResp
  rw [foldl_append_filter]
  rfl

/-- Witness for C3 on a concrete response holding one zero and one
non-zero position: the zero one is dropped, the other is copied verbatim,
as are the balances. -/
theorem account_snapshot_filters_zero_witness :
    (get_account_info sampleBot exSample).result = .ok
      { total_wallet_balance := 1000
        total_unrealized_pnl := 5
        total_margin_balance := 1005
        available_balance := 900
        max_withdraw_amount := 890
        positions :=
          [ { symbol := "ETHUSDT", size := 2, entry_price := 3000
              unrealized_pnl := 5, percentage := 1 } ] } := by
  have h := account_snapshot_filters_zero sampleBot exSample sampleAccount rfl
  rw [h]
  rfl

/-- C8: against an exchange whose open-orders endpoint returns the orders
of the requested symbol (or all of them when unfiltered),
`get_open_orders` with a non-empty symbol issues the request filtered to
the upper-cased symbol and returns only that symbol's orders, while with
`None` or an empty symbol it issues the unfiltered request and returns
the full list unchanged. -/
theorem open_orders_filtering (bot : BotState) (orders : List OrderResp) (s : String) :
    (s ≠ "" →
      (get_open_orders bot (exchangeOfOrders orders) (some s)).trace
          = [.getOpenOrders (some (pyUpper s))] ∧
      (get_open_orders bot (exchangeOfOrders orders) (some s)).result
          = .ok (orders.filter (fun o => o.symbol = pyUpper s))) ∧
    (get_open_orders bot (exchangeOfOrders orders) none).trace
        = [.getOpenOrders none] ∧
    (get_open_orders bot (exchangeOfOrders orders) none).result = .ok orders ∧
    (get_open_orders bot (exchangeOfOrders orders) (some "")).trace
        = [.getOpenOrders none] ∧
    (get_open_orders bot (exchangeOfOrders orders) (some "")).result = .ok orders := by
  refine ⟨fun hs => ?_, rfl, rfl, rfl, rfl⟩
  unfold get_open_orders
  dsimp only
  rw [if_pos (by simpa [pyTruthyStr] using hs)]
  exact ⟨rfl, rfl⟩

/-- Witness for C8 on two concrete open orders of different symbols: the
lower-case filter "btcusdt" is upper-cased and selects exactly the
BTCUSDT order. -/
theorem open_orders_filtering_witness :
    (get_open_orders sampleBot (exchangeOfOrders [sampleOrder, sampleOrder2])
        (some "btcusdt")).trace = [.getOpenOrders (some "BTCUSDT")] ∧
    (get_open_orders sampleBot (exchangeOfOrders [sampleOrder, sampleOrder2])
        (some "btcusdt")).result = .ok [sampleOrder] := by
  have h := (open_orders_filtering sampleBot [sampleOrder, sampleOrder2] "btcusdt").1
    (by decide)
  rw [show pyUpper "btcusdt" = "BTCUSDT" from by decide] at h
  obtain ⟨h1, h2⟩ := h
  refine ⟨h1, ?_⟩
  rw [h2]
  rfl

/-- C6: whenever `get_user_input` returns, the returned value is either
`None` (keyboard interrupt) or a value obtained by parsing the stripped
text of one of the entered lines at the requested scalar type, and that
value satisfies the supplied validation predicate; a line that fails to
parse or fails the predicate is never returned. -/
theorem user_input_sound (ty : InputType) (vf : PyVal → Bool)
    (evts rest : List InputEvent) (res : Option PyVal)
    (h : getUserInput ty vf evts = some (res, rest)) :
    res = none ∨ ∃ v, res = some v ∧ vf v = true ∧
      ∃ s, InputEvent.line s ∈ evts ∧ parseInput ty (pyStrip s) = some v := by
  induction evts with
  | nil => exact Option.noConfusion h
  | cons e t ih =>
    cases e with
    | interrupt =>
      rw [getUserInput] at h
      obtain ⟨h1, -⟩ := Prod.mk.injEq .. ▸ Option.some.inj h
      exact Or.inl h1.symm
    | line s =>
      rw [getUserInput] at h
      cases hp : parseInput ty (pyStrip s) with
      | none =>
        rw [hp] at h
        rcases ih h with hnone | ⟨v, hv, hvf, s2, hmem, hps⟩
        · exact Or.inl hnone
        · exact Or.inr ⟨v, hv, hvf, s2, List.mem_cons_of_mem _ hmem, hps⟩
      | some v =>
        rw [hp] at h
        dsimp only at h
        by_cases hvf : vf v = true
        · rw [if_pos hvf] at h
          obtain ⟨h1, -⟩ := Prod.mk.injEq .. ▸ Option.some.inj h
          exact Or.inr ⟨v, h1.symm, hvf, s, List.mem_cons_self .., hp⟩
        · rw [if_neg hvf] at h
          rcases ih h with hnone | ⟨w, hw, hwf, s2, hmem, hps⟩
          · exact Or.inl hnone
          · exact Or.inr ⟨w, hw, hwf, s2, List.mem_cons_of_mem _ hmem, hps⟩

/-- Witness for C6: a stream whose first line fails to parse as an `int`
and whose second parses (after stripping) and passes the predicate; the
returned value is the parsed second line. -/
theorem user_input_sound_witness :
    (some (PyVal.vInt 42) : Option PyVal) = none ∨
    ∃ v, (some (PyVal.vInt 42) : Option PyVal) = some v ∧
      (fun x => match x with | PyVal.vInt n => decide (0 < n) | _ => false) v = true ∧
      ∃ s, InputEvent.line s ∈ [InputEvent.line "abc", InputEvent.line " 42 "] ∧
        parseInput InputType.int (pyStrip s) = some v :=
  user_input_sound InputType.int
    (fun x => match x with | PyVal.vInt n => decide (0 < n) | _ => false)
    [InputEvent.line "abc", InputEvent.line " 42 "] [] (some (PyVal.vInt 42)) rfl

@[simp] theorem contOut_broke (ev : List InputEvent) : (contOut ev).broke = false := rfl

@[simp] theorem opOut_broke {α : Type} (p : String) (r : OpResult α)
    (ev : List InputEvent) : (opOut p r ev).broke = false := by
  unfold opOut
  split <;> rfl

/-- No menu action ever breaks the loop: every outcome a dispatched
branch can produce (continue-check skip, success, or caught exception)
leaves `broke = false`. -/
theorem menu_branches_never_break (bot : BotState) (ex : Exchange)
    (ev : List InputEvent) (out : IterOut) :
    (menuAccount bot ex ev = some out → out.broke = false) ∧
    (menuPrice bot ex ev = some out → out.broke = false) ∧
    (menuMarket bot ex ev = some out → out.broke = false) ∧
    (menuLimit bot ex ev = some out → out.broke = false) ∧
    (menuStopLimit bot ex ev = some out → out.broke = false) ∧
    (menuStatus bot ex ev = some out → out.broke = false) ∧
    (menuCancel bot ex ev = some out → out.broke = false) ∧
    (menuOpenOrders bot ex ev = some out → out.broke = false) := by
  refine ⟨fun h => ?_, fun h => ?_, fun h => ?_, fun h => ?_, fun h => ?_,
    fun h => ?_, fun h => ?_, fun h => ?_⟩
  · unfold menuAccount at h
    obtain rfl := Option.some.inj h
    simp
  · unfold menuPrice at h
    repeat' split at h
    all_goals
      first
        | exact Option.noConfusion h
        | (obtain rfl := Option.some.inj h; simp)
  · unfold menuMarket at h
    repeat' split at h
    all_goals
      first
        | exact Option.noConfusion h
        | (obtain rfl := Option.some.inj h; simp)
  · unfold menuLimit at h
    repeat' split at h
    all_goals
      first
        | exact Option.noConfusion h
        | (obtain rfl := Option.some.inj h; simp)
  · unfold menuStopLimit at h
    repeat' split at h
    all_goals
      first
        | exact Option.noConfusion h
        | (obtain rfl := Option.some.inj h; simp)
  · unfold menuStatus at h
    repeat' split at h
    all_goals
      first
        | exact Option.noConfusion h
        | (obtain rfl := Option.some.inj h; simp)
  · unfold menuCancel at h
    repeat' split at h
    all_goals
      first
        | exact Option.noConfusion h
        | (obtain rfl := Option.some.inj h; simp)
  · unfold menuOpenOrders at h
    repeat' split at h
    all_goals
      first
        | exact Option.noConfusion h
        | (obtain rfl := Option.some.inj h; simp)

/-- C4: the menu loop survives every operation failure.  First: whenever
an iteration breaks the loop, no wrapper operation was dispatched at all
(empty trace, nothing printed) — the loop only ends at the menu prompt
(interrupt or choice 9), so no exception from a dispatched operation ever
terminates the process.  Second, concretely for the cancel-order action:
when the exchange rejects the cancellation (as for a non-existent order
id), the iteration displays the exchange's message and ends unbroken,
ready for the next menu prompt.  Third: the per-operation handler every
dispatched operation runs under (`opOut`, the `try`/`except` of each
menu branch) turns any raised exception into a displayed message with
the loop not broken. -/
theorem menu_loop_catches_operation_errors :
    (∀ (bot : BotState) (ex : Exchange) (events : List InputEvent) (out : IterOut),
        mainIteration bot ex events = some out → out.broke = true →
          out.trace = [] ∧ out.displayed = []) ∧
    (∀ (bot : BotState) (ex : Exchange) (e : Exn),
        ex.cancel "BTCUSDT" 123 = .error e →
          mainIteration bot ex [.line "7", .line "BTCUSDT", .line "123"]
            = some { broke := false
                     displayed := ["Error cancelling order: " ++ e.msg]
                     trace := [.cancelOrder "BTCUSDT" 123]
                     rest := [] }) ∧
    (∀ (α : Type) (p : String) (r : OpResult α) (ev : List InputEvent) (e : Exn),
        r.result = .error e →
          (opOut p r ev).broke = false ∧ (p ++ e.msg) ∈ (opOut p r ev).displayed) := by
  refine ⟨?_, ?_, ?_⟩
  · intro bot ex events out h hb
    unfold mainIteration at h
    repeat' split at h
    all_goals
      first
        | exact Option.noConfusion h
        | (obtain rfl := Option.some.inj h; simp_all)
        | exact Bool.noConfusion
            (((menu_branches_never_break _ _ _ _).1 h).symm.trans hb)
        | exact Bool.noConfusion
            (((menu_branches_never_break _ _ _ _).2.1 h).symm.trans hb)
        | exact Bool.noConfusion
            (((menu_branches_never_break _ _ _ _).2.2.1 h).symm.trans hb)
        | exact Bool.noConfusion
            (((menu_branches_never_break _ _ _ _).2.2.2.1 h).symm.trans hb)
        | exact Bool.noConfusion
            (((menu_branches_never_break _ _ _ _).2.2.2.2.1 h).symm.trans hb)
        | exact Bool.noConfusion
            (((menu_branches_never_break _ _ _ _).2.2.2.2.2.1 h).symm.trans hb)
        | exact Bool.noConfusion
            (((menu_branches_never_break _ _ _ _).2.2.2.2.2.2.1 h).symm.trans hb)
        | exact Bool.noConfusion
            (((menu_branches_never_break _ _ _ _).2.2.2.2.2.2.2 h).symm.trans hb)
  · intro bot ex e h
    have h7 : mainIteration bot ex [.line "7", .line "BTCUSDT", .line "123"]
        = some (opOut "Error cancelling order: "
            (cancel_order bot ex "BTCUSDT" 123) []) := rfl
    rw [h7]
    unfold opOut cancel_order
    dsimp only
    rw [show ex.cancel (pyUpper "BTCUSDT") 123 = Except.error e from h]
    rfl
  · intro α p r ev e h
    unfold opOut
    rw [h]
    exact ⟨rfl, List.mem_singleton_self _⟩

/-- Witness for C4: the break-only-from-menu part applied to an
interrupted menu prompt, and the cancel part applied to the concrete
exchange that rejects cancellations. -/
theorem menu_loop_catches_operation_errors_witness :
    (({ broke := true, displayed := [], trace := [], rest := [] } : IterOut).trace = []
      ∧ ({ broke := true, displayed := [], trace := [], rest := [] } : IterOut).displayed
          = []) ∧
    mainIteration sampleBot exSample [.line "7", .line "BTCUSDT", .line "123"]
      = some { broke := false
               displayed := ["Error cancelling order: Unknown order sent."]
               trace := [.cancelOrder "BTCUSDT" 123]
               rest := [] } := by
  constructor
  · exact menu_loop_catches_operation_errors.1 sampleBot exSample
      [InputEvent.interrupt] _ rfl rfl
  · have h := menu_loop_catches_operation_errors.2.1 sampleBot exSample
      (.apiError "Unknown order sent.") rfl
    simpa [Exn.msg] using h
